import Mathlib

/-!
Verification of the CodexMonitor daemon (src-tauri/src/bin/codex_monitor_daemon.rs
and src-tauri/src/bin/codex_monitor_daemon/transport.rs) against its
natural-language specification.

The embedding models JSON values, the request/response envelope builders, the
RPC dispatch match, the per-connection authentication state machine of both the
monolithic TCP handler (codex_monitor_daemon.rs, `handle_client`) and the
refactored transport-module handler (transport.rs, `handle_rpc_json_message`),
the orbit (runner) line handler, the orbit reconnection backoff, command-line
argument parsing, and the workspace-file path confinement check.
-/

namespace CodexMonitor

/-- JSON value model for `serde_json::Value` as used by the daemon: null,
booleans, integers (the daemon only ever inspects numbers through `as_u64`),
strings, arrays and objects (field lists, first match wins on lookup). -/
inductive JValue where
  | null
  | bool (b : Bool)
  | num (n : Int)
  | str (s : String)
  | arr (items : List JValue)
  | obj (fields : List (String × JValue))

/-- First-match field lookup in a JSON object, modelling `Map::get`. -/
def jLookup (fields : List (String × JValue)) (key : String) : Option JValue :=
  (fields.find? (fun p => p.1 == key)).map (fun p => p.2)

/-- Models `Value::get(key)`: `some` only on objects that carry the key. -/
def JValue.get? : JValue → String → Option JValue
  | JValue.obj fields, key => jLookup fields key
  | _, _ => none

/-- Models `Value::as_str`. -/
def JValue.asStr? : JValue → Option String
  | JValue.str s => some s
  | _ => none

/-- Models `Value::as_u64`: defined exactly on non-negative integers below
2^64. -/
def JValue.asU64? : JValue → Option Nat
  | JValue.num n => if 0 ≤ n ∧ n < (2 : Int) ^ 64 then some n.toNat else none
  | _ => none

/-- The id extraction shared by every handler:
`message.get("id").and_then(|value| value.as_u64())`. -/
def msgId (message : JValue) : Option Nat :=
  (message.get? "id").bind JValue.asU64?

/-- The method extraction shared by every handler:
`message.get("method").and_then(as_str).unwrap_or("")`. -/
def msgMethod (message : JValue) : String :=
  ((message.get? "method").bind JValue.asStr?).getD ""

/-- The params extraction shared by every handler:
`message.get("params").cloned().unwrap_or(Value::Null)`. -/
def msgParams (message : JValue) : JValue :=
  (message.get? "params").getD JValue.null

/-- Outbound wire messages produced by the handlers themselves. `result` and
`error` are the two response envelope shapes built by `build_result_response`
and `build_error_response` (codex_monitor_daemon.rs:1438-1458); `pong` is the
orbit-mode control frame with a type field equal to pong. Event notifications
are emitted only by the separately spawned `forward_events` task, which the
handlers never run inline, so they do not appear here; the `eventTasks`
counter of `ConnState` tracks how many forwarding tasks were spawned. -/
inductive Output where
  | result (id : Nat) (value : JValue)
  | error (id : Nat) (message : String)
  | pong

/-- Models `build_error_response` (codex_monitor_daemon.rs:1438-1449): the id
is required (`let id = id?;`), so `none` id yields no response at all. -/
def build_error_response (id : Option Nat) (message : String) : Option Output :=
  id.map (fun i => Output.error i message)

/-- Models `build_result_response` (codex_monitor_daemon.rs:1451-1458). -/
def build_result_response (id : Option Nat) (value : JValue) : Option Output :=
  id.map (fun i => Output.result i value)

/-- The id a response envelope correlates to (`pong` is not a response). -/
def outputId : Output → Option Nat
  | Output.result i _ => some i
  | Output.error i _ => some i
  | Output.pong => none

/-- The JSON object produced by the ok responses of the daemon. -/
def okTrue : JValue := JValue.obj [("ok", JValue.bool true)]

/-- Models `parse_auth_token` (codex_monitor_daemon.rs:1478-1487): a bare
string, or an object with a string `token` field. -/
def parse_auth_token : JValue → Option String
  | JValue.str v => some v
  | JValue.obj map => (jLookup map "token").bind JValue.asStr?
  | _ => none

/-- Abstraction of the state-touching and collaborator-calling operation
bodies of `handle_rpc_request`: given the method name and params, the outcome
of the named operation (every arm of the source match returns
`Result<Value, String>`). -/
def RpcEnv : Type := String → JValue → Except String JValue

/-- The closed set of method names with a dedicated arm in the
`handle_rpc_request` match (codex_monitor_daemon.rs:1587-2159), in source
order. -/
def dispatchableMethods : List String :=
  ["ping", "list_workspaces", "is_workspace_path_dir", "add_workspace",
   "add_worktree", "worktree_setup_status", "worktree_setup_mark_ran",
   "connect_workspace", "remove_workspace", "remove_worktree",
   "rename_worktree", "rename_worktree_upstream", "update_workspace_settings",
   "update_workspace_codex_bin", "list_workspace_files", "read_workspace_file",
   "file_read", "file_write", "get_app_settings", "update_app_settings",
   "orbit_connect_test", "orbit_sign_in_start", "orbit_sign_in_poll",
   "orbit_sign_out", "get_codex_config_path", "get_config_model",
   "start_thread", "resume_thread", "fork_thread", "list_threads",
   "list_mcp_server_status", "archive_thread", "compact_thread",
   "set_thread_name", "send_user_message", "turn_interrupt", "start_review",
   "model_list", "collaboration_mode_list", "account_rate_limits",
   "account_read", "codex_login", "codex_login_cancel", "skills_list",
   "apps_list", "respond_to_server_request", "remember_approval_rule",
   "add_clone", "apply_worktree_changes", "open_workspace_in",
   "get_open_app_icon", "get_git_status", "list_git_roots", "get_git_diffs",
   "get_git_log", "get_git_commit_diff", "get_git_remote", "stage_git_file",
   "stage_git_all", "unstage_git_file", "revert_git_file", "revert_git_all",
   "commit_git", "push_git", "pull_git", "fetch_git", "sync_git",
   "get_github_issues", "get_github_pull_requests",
   "get_github_pull_request_diff", "get_github_pull_request_comments",
   "list_git_branches", "checkout_git_branch", "create_git_branch",
   "prompts_list", "prompts_workspace_dir", "prompts_global_dir",
   "prompts_create", "prompts_update", "prompts_delete", "prompts_move",
   "codex_doctor", "get_commit_message_prompt", "generate_commit_message",
   "generate_run_metadata", "local_usage_snapshot", "menu_set_accelerators",
   "is_macos_debug_build", "send_notification_fallback"]

/-- Models `handle_rpc_request` (codex_monitor_daemon.rs:1581-2162). The
`ping` arm returns its literal constant; every other named arm invokes a
registry/collaborator operation abstracted by `env`; the fallthrough arm
(line 2160) produces the uniform unknown-method error string. -/
def handle_rpc_request (env : RpcEnv) (method : String) (params : JValue) :
    Except String JValue :=
  if method = "ping" then Except.ok okTrue
  else if dispatchableMethods.contains method then env method params
  else Except.error ("unknown method: " ++ method)

/-- Response selection shared by the dispatch paths: an ok dispatch becomes a
result envelope, an err dispatch an error envelope; either is dropped when the
request carried no id. -/
def rpcResponse (id : Option Nat) : Except String JValue → Option Output
  | Except.ok v => build_result_response id v
  | Except.error message => build_error_response id message

/-- Per-connection mutable state of a handler: the `authenticated` flag and
the number of event-forwarding tasks spawned so far (the `events_task` option
of the source holds at most one join handle; spawning is the only way events
can reach the connection). -/
structure ConnState where
  authenticated : Bool
  eventTasks : Nat
deriving DecidableEq

/-- Result of handling one inbound message: the updated connection state, the
wire outputs queued on `out_tx`, and the dispatch record, one entry per call
into the RPC dispatch engine. -/
structure HandleResult where
  state : ConnState
  out : List Output
  dispatched : List (String × JValue)

/-- Models the per-message body of the read loop of `handle_client`
(codex_monitor_daemon.rs:2226-2271): the monolithic TCP handler. While
unauthenticated, any method other than auth is refused with an unauthorized
error (sent only when the request carried an id); an auth request compares
`config.token.clone().unwrap_or_default()` with the parsed client token,
answers invalid token on mismatch, and on match flips the flag, answers ok and
spawns the event-forwarding task (lines 2256-2258, unconditionally). Once
authenticated, every message, whatever its method, is dispatched through
`handle_rpc_request` and answered iff it carried an id. -/
def handle_client_message (token : Option String) (env : RpcEnv)
    (s : ConnState) (message : JValue) : HandleResult :=
  let id := msgId message
  let method := msgMethod message
  let params := msgParams message
  if s.authenticated = false then
    if method ≠ "auth" then
      { state := s, out := (build_error_response id "unauthorized").toList,
        dispatched := [] }
    else if (token.getD "") ≠ ((parse_auth_token params).getD "") then
      { state := s, out := (build_error_response id "invalid token").toList,
        dispatched := [] }
    else
      { state := { authenticated := true, eventTasks := s.eventTasks + 1 },
        out := (build_result_response id okTrue).toList, dispatched := [] }
  else
    { state := s,
      out := (rpcResponse id (handle_rpc_request env method params)).toList,
      dispatched := [(method, params)] }

/-- Modelled from the spec: `spawn_rpc_response_task` is defined in the
repository module `codex_monitor_daemon/rpc.rs`, which is not under `src/`
(only its caller transport.rs is). Per the spec (sections 4.3, 4.4 and 6), a
dispatched request produces a structured result or an error string, a present
id guarantees exactly one correlated response envelope and an absent id none;
the envelope builders are the functions of the same names in
codex_monitor_daemon.rs:1438-1458, and dispatch routes through
`handle_rpc_request`. The concurrency of the spawned task is not modelled;
only its observable response is. -/
def spawn_rpc_response_task (env : RpcEnv) (id : Option Nat) (method : String)
    (params : JValue) : List Output × List (String × JValue) :=
  ((rpcResponse id (handle_rpc_request env method params)).toList,
   [(method, params)])

/-- Models `handle_rpc_json_message` (transport.rs:15-73): the refactored
transport-module handler. It differs from `handle_client_message` in two
places: a message whose extracted method is the empty string is dropped before
anything else (lines 33-35), and the event-forwarding task is spawned only
when none exists yet (line 58, `if events_task.is_none()`). -/
def handle_rpc_json_message (token : Option String) (env : RpcEnv)
    (s : ConnState) (message : JValue) : HandleResult :=
  let id := msgId message
  let method := msgMethod message
  let params := msgParams message
  if method = "" then
    { state := s, out := [], dispatched := [] }
  else if s.authenticated = false then
    if method ≠ "auth" then
      { state := s, out := (build_error_response id "unauthorized").toList,
        dispatched := [] }
    else if (token.getD "") ≠ ((parse_auth_token params).getD "") then
      { state := s, out := (build_error_response id "invalid token").toList,
        dispatched := [] }
    else
      { state := { authenticated := true,
                   eventTasks := if s.eventTasks = 0 then s.eventTasks + 1
                                 else s.eventTasks },
        out := (build_result_response id okTrue).toList, dispatched := [] }
  else
    let r := spawn_rpc_response_task env id method params
    { state := s, out := r.1, dispatched := r.2 }

/-- Models `handle_rpc_line` (transport.rs:75-107): trim the line, silently
drop it when empty or when `serde_json::from_str` fails (abstracted by the
`parse` parameter), otherwise hand the parsed value to
`handle_rpc_json_message`. -/
def handle_rpc_line (parse : String → Option JValue) (token : Option String)
    (env : RpcEnv) (s : ConnState) (line : String) : HandleResult :=
  let trimmed := line.trim
  if trimmed = "" then { state := s, out := [], dispatched := [] }
  else
    match parse trimmed with
    | none => { state := s, out := [], dispatched := [] }
    | some message => handle_rpc_json_message token env s message

/-- Models the line handling of the `handle_client` read loop
(codex_monitor_daemon.rs:2215-2224): identical trim/skip/parse-or-drop
framing, feeding `handle_client_message`. -/
def handle_client_line (parse : String → Option JValue) (token : Option String)
    (env : RpcEnv) (s : ConnState) (line : String) : HandleResult :=
  let trimmed := line.trim
  if trimmed = "" then { state := s, out := [], dispatched := [] }
  else
    match parse trimmed with
    | none => { state := s, out := [], dispatched := [] }
    | some message => handle_client_message token env s message

/-- Runs a connection handler over a list of inbound items, threading the
connection state and concatenating outputs and dispatch records, exactly as
the `while let` read loops do until EOF. -/
def runConn {α : Type} (step : ConnState → α → HandleResult) :
    ConnState → List α → ConnState × List Output × List (String × JValue)
  | s, [] => (s, [], [])
  | s, x :: rest =>
    let r := step s x
    let t := runConn step r.state rest
    (t.1, r.out ++ t.2.1, r.dispatched ++ t.2.2)

/-- Models the connection setup of `handle_client`
(codex_monitor_daemon.rs:2206-2213 and transport.rs:130-137): the connection
starts authenticated with one event-forwarding task iff no token is
configured. -/
def initial_conn_state (token : Option String) : ConnState :=
  if token.isNone then { authenticated := true, eventTasks := 1 }
  else { authenticated := false, eventTasks := 0 }

/-- ASCII lowercasing of one character, as `u8::to_ascii_lowercase` does on
each byte (non-ASCII characters are untouched). -/
def asciiLowerChar (c : Char) : Char :=
  if 65 ≤ c.toNat ∧ c.toNat ≤ 90 then Char.ofNat (c.toNat + 32) else c

/-- Models `str::eq_ignore_ascii_case`: equality after ASCII lowercasing
(char-wise, which agrees with the byte-wise Rust comparison on valid
UTF-8). -/
def eqIgnoreAsciiCase (a b : String) : Bool :=
  a.data.map asciiLowerChar == b.data.map asciiLowerChar

/-- Models `handle_orbit_line` on a parsed message
(codex_monitor_daemon.rs:2281-2325; transport.rs:322-368 is identical except
that its dispatch goes through `spawn_rpc_response_task`, whose observable
response is the same). A message carrying a string `type` field is consumed at
the relay level: it is answered with a pong frame exactly when the type equals
ping up to ASCII case, and is never dispatched. Otherwise the usual envelope
fields are extracted; an empty method is dropped; the auth method is accepted
unconditionally, with no token parameter even reaching this function; every
other method is dispatched as on an inbound connection. -/
def handle_orbit_message (env : RpcEnv) (message : JValue) :
    List Output × List (String × JValue) :=
  match (message.get? "type").bind JValue.asStr? with
  | some messageType =>
    (if eqIgnoreAsciiCase messageType "ping" then [Output.pong] else [], [])
  | none =>
    let id := msgId message
    let method := msgMethod message
    let params := msgParams message
    if method = "" then ([], [])
    else if method = "auth" then
      ((build_result_response id okTrue).toList, [])
    else
      ((rpcResponse id (handle_rpc_request env method params)).toList,
       [(method, params)])

/-- Models the raw-line entry of `handle_orbit_line`: a line that
`serde_json::from_str` rejects is silently dropped. -/
def handle_orbit_line (parse : String → Option JValue) (env : RpcEnv)
    (line : String) : List Output × List (String × JValue) :=
  match parse line with
  | none => ([], [])
  | some message => handle_orbit_message env message

/-- The fixed reconnect ceiling of `run_orbit_mode`, in seconds
(`Duration::from_secs(20)`). -/
def ORBIT_MAX_DELAY : Nat := 20

/-- The fixed initial reconnect delay of `run_orbit_mode`, in seconds
(`let mut reconnect_delay = Duration::from_secs(1)`). -/
def ORBIT_BASE_DELAY : Nat := 1

/-- The delay update applied after every sleep of `run_orbit_mode`:
`reconnect_delay = (reconnect_delay * 2).min(Duration::from_secs(20))`. -/
def next_reconnect_delay (d : Nat) : Nat := min (2 * d) ORBIT_MAX_DELAY

/-- One observable iteration outcome of the `run_orbit_mode` loop
(codex_monitor_daemon.rs:2327-2433 and transport.rs:370-489, identical):
either the URL build fails, or the connect fails, or the connection succeeds
and its stream later terminates. -/
inductive OrbitEvent where
  | urlFail
  | connFail
  | sessionEnd

/-- Runs the `run_orbit_mode` loop over a list of iteration outcomes, starting
from the given reconnect delay, returning the list of sleep durations in
order and the final delay. A url or connect failure sleeps the current delay
then doubles it (capped); a successful connection resets the delay to one
second (line 2367), and when its stream terminates the loop sleeps that reset
delay and doubles it (lines 2430-2431). -/
def orbitRun : Nat → List OrbitEvent → List Nat × Nat
  | d, [] => ([], d)
  | d, OrbitEvent.urlFail :: rest =>
    let t := orbitRun (next_reconnect_delay d) rest
    (d :: t.1, t.2)
  | d, OrbitEvent.connFail :: rest =>
    let t := orbitRun (next_reconnect_delay d) rest
    (d :: t.1, t.2)
  | _, OrbitEvent.sessionEnd :: rest =>
    let t := orbitRun (next_reconnect_delay ORBIT_BASE_DELAY) rest
    (ORBIT_BASE_DELAY :: t.1, t.2)

/-- The default bind address (codex_monitor_daemon.rs:96). -/
def DEFAULT_LISTEN_ADDR : String := "127.0.0.1:4732"

/-- Models `usage` (codex_monitor_daemon.rs:1320-1326), with the default
listen address interpolated as in the source format string. -/
def usage : String :=
  "USAGE:\n  codex-monitor-daemon [--listen <addr>] [--data-dir <path>] [--token <token> | --insecure-no-auth]\n  codex-monitor-daemon --orbit-url <ws-url> [--orbit-token <token>] [--orbit-auth-url <url>] [--orbit-runner-name <name>] [--data-dir <path>]\n\nOPTIONS:\n  --listen <addr>          Bind address (default: "
    ++ DEFAULT_LISTEN_ADDR ++
  ")\n  --data-dir <path>        Data dir holding workspaces.json/settings.json\n  --token <token>          Shared token required by TCP clients\n  --insecure-no-auth       Disable TCP auth (dev only)\n  --orbit-url <ws-url>     Run in Orbit runner mode and connect outbound to this WS URL\n  --orbit-token <token>    Orbit auth token (optional if URL already includes token)\n  --orbit-auth-url <url>   Orbit auth base URL (metadata only, optional)\n  --orbit-runner-name <n>  Runner display name (metadata only, optional)\n  -h, --help               Show this help\n"

/-- The startup error produced when inbound mode lacks any auth configuration
(codex_monitor_daemon.rs:1420-1424). -/
def missingTokenError : String :=
  "Missing --token (or set CODEX_MONITOR_DAEMON_TOKEN). Use --insecure-no-auth for local dev only."

/-- Models the environment-variable intake of `parse_args`: the variable value
is trimmed and an empty result is discarded
(`.map(|value| value.trim().to_string()).filter(|value| !value.is_empty())`). -/
def envFilter : Option String → Option String
  | none => none
  | some v => let t := v.trim; if t = "" then none else some t

/-- The configuration produced by a successful `parse_args`
(struct `DaemonConfig`). The listen address is kept as its textual form; the
data directory defaults are resolved by the caller-supplied default. -/
structure DaemonConfig where
  listen : String
  token : Option String
  dataDir : String
  orbitUrl : Option String
  orbitToken : Option String
  orbitAuthUrl : Option String
  orbitRunnerName : Option String

/-- Outcome of `parse_args` plus the help path: `ok` returns the config, `err`
is the `Err(String)` return, and `helpExit` is the early
`print usage; exit(0)` of the `-h`/`--help` arm. -/
inductive ParseArgsResult where
  | ok (config : DaemonConfig)
  | err (message : String)
  | helpExit

/-- The mutable locals of the `parse_args` loop
(codex_monitor_daemon.rs:1329-1350). -/
structure ArgLoopState where
  listen : String
  token : Option String
  insecureNoAuth : Bool
  dataDir : Option String
  orbitUrl : Option String
  orbitToken : Option String
  orbitAuthUrl : Option String
  orbitRunnerName : Option String

/-- The initial loop state of `parse_args`: listen defaults, the token and the
orbit metadata seeded from the (filtered) environment variables
CODEX_MONITOR_DAEMON_TOKEN, CODEX_MONITOR_ORBIT_TOKEN,
CODEX_MONITOR_ORBIT_AUTH_URL and CODEX_MONITOR_ORBIT_RUNNER_NAME. -/
def initialArgState (envToken envOrbitToken envOrbitAuthUrl
    envOrbitRunnerName : Option String) : ArgLoopState :=
  { listen := DEFAULT_LISTEN_ADDR
    token := envFilter envToken
    insecureNoAuth := false
    dataDir := none
    orbitUrl := none
    orbitToken := envFilter envOrbitToken
    orbitAuthUrl := envFilter envOrbitAuthUrl
    orbitRunnerName := envFilter envOrbitRunnerName }

/-- The final step of `parse_args` once the argument list is exhausted
(codex_monitor_daemon.rs:1419-1435): inbound mode without a token and without
the insecure flag is rejected; otherwise the config is assembled, with the
data directory defaulted. -/
def parseArgsFinish (defaultDataDir : String) (st : ArgLoopState) :
    ParseArgsResult :=
  if st.orbitUrl.isNone && st.token.isNone && !st.insecureNoAuth then
    ParseArgsResult.err missingTokenError
  else
    ParseArgsResult.ok
      { listen := st.listen
        token := st.token
        dataDir := st.dataDir.getD defaultDataDir
        orbitUrl := st.orbitUrl
        orbitToken := st.orbitToken
        orbitAuthUrl := st.orbitAuthUrl
        orbitRunnerName := st.orbitRunnerName }

/-- Models the argument loop of `parse_args`
(codex_monitor_daemon.rs:1352-1417). `parseAddr` abstracts
`value.parse::<SocketAddr>()`, carrying its error text. Each arm consumes its
value from the front of the list exactly as `args.next()` does. -/
def parseArgsLoop (parseAddr : String → Except String String)
    (defaultDataDir : String) (st : ArgLoopState) :
    List String → ParseArgsResult
  | [] => parseArgsFinish defaultDataDir st
  | arg :: rest =>
    if arg = "-h" ∨ arg = "--help" then ParseArgsResult.helpExit
    else if arg = "--listen" then
      match rest with
      | [] => ParseArgsResult.err "--listen requires a value"
      | v :: rest2 =>
        match parseAddr v with
        | Except.error e => ParseArgsResult.err e
        | Except.ok addr =>
          parseArgsLoop parseAddr defaultDataDir { st with listen := addr }
            rest2
    else if arg = "--token" then
      match rest with
      | [] => ParseArgsResult.err "--token requires a value"
      | v :: rest2 =>
        if v.trim = "" then
          ParseArgsResult.err "--token requires a non-empty value"
        else
          parseArgsLoop parseAddr defaultDataDir
            { st with token := some v.trim } rest2
    else if arg = "--data-dir" then
      match rest with
      | [] => ParseArgsResult.err "--data-dir requires a value"
      | v :: rest2 =>
        if v.trim = "" then
          ParseArgsResult.err "--data-dir requires a non-empty value"
        else
          parseArgsLoop parseAddr defaultDataDir
            { st with dataDir := some v.trim } rest2
    else if arg = "--insecure-no-auth" then
      parseArgsLoop parseAddr defaultDataDir
        { st with insecureNoAuth := true, token := none } rest
    else if arg = "--orbit-url" then
      match rest with
      | [] => ParseArgsResult.err "--orbit-url requires a value"
      | v :: rest2 =>
        if v.trim = "" then
          ParseArgsResult.err "--orbit-url requires a non-empty value"
        else
          parseArgsLoop parseAddr defaultDataDir
            { st with orbitUrl := some v.trim } rest2
    else if arg = "--orbit-token" then
      match rest with
      | [] => ParseArgsResult.err "--orbit-token requires a value"
      | v :: rest2 =>
        if v.trim = "" then
          ParseArgsResult.err "--orbit-token requires a non-empty value"
        else
          parseArgsLoop parseAddr defaultDataDir
            { st with orbitToken := some v.trim } rest2
    else if arg = "--orbit-auth-url" then
      match rest with
      | [] => ParseArgsResult.err "--orbit-auth-url requires a value"
      | v :: rest2 =>
        if v.trim = "" then
          ParseArgsResult.err "--orbit-auth-url requires a non-empty value"
        else
          parseArgsLoop parseAddr defaultDataDir
            { st with orbitAuthUrl := some v.trim } rest2
    else if arg = "--orbit-runner-name" then
      match rest with
      | [] => ParseArgsResult.err "--orbit-runner-name requires a value"
      | v :: rest2 =>
        if v.trim = "" then
          ParseArgsResult.err "--orbit-runner-name requires a non-empty value"
        else
          parseArgsLoop parseAddr defaultDataDir
            { st with orbitRunnerName := some v.trim } rest2
    else ParseArgsResult.err ("Unknown argument: " ++ arg)

/-- Models `parse_args` (codex_monitor_daemon.rs:1328-1436) end to end, from
the raw environment variables and the argument list. -/
def parse_args (parseAddr : String → Except String String)
    (defaultDataDir : String) (envToken envOrbitToken envOrbitAuthUrl
    envOrbitRunnerName : Option String) (args : List String) :
    ParseArgsResult :=
  parseArgsLoop parseAddr defaultDataDir
    (initialArgState envToken envOrbitToken envOrbitAuthUrl envOrbitRunnerName)
    args

/-- Models the startup failure path of `main`
(codex_monitor_daemon.rs:2587-2594): when `parse_args` fails, the process
prints the error plus the usage text to standard error
(`eprintln` of the error, a blank line, and `usage()`) and exits with code 2;
otherwise startup proceeds and no such exit occurs here. -/
def mainParseFailureExit : ParseArgsResult → Option (Nat × String)
  | ParseArgsResult.err message => some (2, message ++ "\n\n" ++ usage)
  | _ => none

/-- The read cap of `read_workspace_file_inner`
(codex_monitor_daemon.rs:1269). -/
def MAX_WORKSPACE_FILE_BYTES : Nat := 400000

/-- Abstraction of the filesystem operations used by
`read_workspace_file_inner`. Canonical paths are component lists, so that
`Path::starts_with` is component-wise list prefixing; `canonicalize` resolves
symlinks and dot segments and fails on missing entries, exactly as
`std::fs::canonicalize`; `isFile` is `std::fs::metadata(..).is_file()`;
`openOk` is the `File::open` outcome; `bytes` is the full byte content read by
`read_to_end`; `utf8` abstracts `String::from_utf8`. -/
structure Fs where
  canonicalize : List String → Except String (List String)
  isFile : List String → Except String Bool
  openOk : List String → Except String Unit
  bytes : List String → Except String (List Nat)
  utf8 : List Nat → Option String

/-- Models `read_workspace_file_inner` (codex_monitor_daemon.rs:1271-1304):
canonicalize the workspace root, join the requested relative path, fully
canonicalize the candidate, refuse any result that does not lie under the
canonical root, refuse non-regular files, then open the file and read at most
MAX_WORKSPACE_FILE_BYTES + 1 bytes, truncating and flagging when the cap was
exceeded, and decode as UTF-8. The success value pairs the content with the
truncated flag of `WorkspaceFileResponse`. -/
def read_workspace_file_inner (fs : Fs) (root : List String)
    (relativePath : List String) : Except String (String × Bool) :=
  match fs.canonicalize root with
  | Except.error err =>
    Except.error ("Failed to resolve workspace root: " ++ err)
  | Except.ok canonicalRoot =>
    match fs.canonicalize (canonicalRoot ++ relativePath) with
    | Except.error err => Except.error ("Failed to open file: " ++ err)
    | Except.ok canonicalPath =>
      if ¬ canonicalRoot.isPrefixOf canonicalPath then
        Except.error "Invalid file path"
      else
        match fs.isFile canonicalPath with
        | Except.error err =>
          Except.error ("Failed to read file metadata: " ++ err)
        | Except.ok isf =>
          if ¬ isf then Except.error "Path is not a file"
          else
            match fs.openOk canonicalPath with
            | Except.error err =>
              Except.error ("Failed to open file: " ++ err)
            | Except.ok _ =>
              match fs.bytes canonicalPath with
              | Except.error err =>
                Except.error ("Failed to read file: " ++ err)
              | Except.ok content =>
                let buffer := content.take (MAX_WORKSPACE_FILE_BYTES + 1)
                let truncated := decide (MAX_WORKSPACE_FILE_BYTES < buffer.length)
                let buffer2 :=
                  if truncated then buffer.take MAX_WORKSPACE_FILE_BYTES
                  else buffer
                match fs.utf8 buffer2 with
                | none => Except.error "File is not valid UTF-8"
                | some text => Except.ok (text, truncated)

/-- A concrete dispatch environment for closed counterexamples and witnesses:
every abstracted operation fails with a fixed collaborator error. -/
def exEnv : RpcEnv := fun _ _ => Except.error "collaborator unavailable"

/-- The connection state before authentication on a token-bearing connection. -/
def exUnauthState : ConnState := { authenticated := false, eventTasks := 0 }

/-- The connection state after a successful authentication. -/
def exAuthState : ConnState := { authenticated := true, eventTasks := 1 }

/-- A request carrying id 1 and the empty method name. -/
def exEmptyMethodMsg : JValue :=
  JValue.obj [("id", JValue.num 1), ("method", JValue.str "")]

/-- A request carrying id 7 and the empty method name. -/
def exEmptyMethodMsgB : JValue :=
  JValue.obj [("id", JValue.num 7), ("method", JValue.str "")]

/-- A correct auth request with id 1 against the token secret. -/
def exAuthReq1 : JValue :=
  JValue.obj [("id", JValue.num 1), ("method", JValue.str "auth"),
    ("params", JValue.str "secret")]

/-- A correct auth request with id 2 against the token secret. -/
def exAuthReq2 : JValue :=
  JValue.obj [("id", JValue.num 2), ("method", JValue.str "auth"),
    ("params", JValue.str "secret")]

/-- The request of the end-to-end ping scenario. -/
def exPingMsg : JValue :=
  JValue.obj [("id", JValue.num 1), ("method", JValue.str "ping")]

/-- An orbit control frame whose type field is PING in upper case. -/
def exOrbitPing : JValue := JValue.obj [("type", JValue.str "PING")]

/-- An orbit auth request with id 5 and no params at all. -/
def exOrbitAuth : JValue :=
  JValue.obj [("id", JValue.num 5), ("method", JValue.str "auth")]

/-- The connection states reachable from a fresh unauthenticated connection:
either still fresh, or authenticated with exactly one forwarding task. -/
def goodState (s : ConnState) : Prop :=
  s = { authenticated := false, eventTasks := 0 } ∨
  s = { authenticated := true, eventTasks := 1 }

/-- A concrete filesystem for the path-confinement witness: the workspace
root is home/ws; the candidate home/ws/../secret canonicalizes to
home/secret, outside the root. -/
def exFs : Fs where
  canonicalize := fun p =>
    if p = ["home", "ws"] then Except.ok ["home", "ws"]
    else if p = ["home", "ws", "..", "secret"] then Except.ok ["home", "secret"]
    else Except.error "No such file or directory"
  isFile := fun _ => Except.ok true
  openOk := fun _ => Except.ok ()
  bytes := fun _ => Except.ok []
  utf8 := fun _ => some ""

/-- A parse function that rejects every line, for the malformed-line
witness. -/
def exParseNone : String → Option JValue := fun _ => none

theorem rpcResponse_none (e : Except String JValue) : rpcResponse none e = none := by
  cases e <;> rfl

theorem rpcResponse_some (i : Nat) (e : Except String JValue) :
    ∃ o, rpcResponse (some i) e = some o ∧ outputId o = some i := by
  cases e with
  | ok v => exact ⟨Output.result i v, rfl, rfl⟩
  | error m => exact ⟨Output.error i m, rfl, rfl⟩

theorem runConn_cons {α : Type} (step : ConnState → α → HandleResult)
    (s : ConnState) (x : α) (xs : List α) :
    runConn step s (x :: xs)
      = ((runConn step (step s x).state xs).1,
         (step s x).out ++ (runConn step (step s x).state xs).2.1,
         (step s x).dispatched ++ (runConn step (step s x).state xs).2.2) := rfl

theorem runConn_state_preserve {α : Type} (step : ConnState → α → HandleResult)
    (P : ConnState → Prop) (hstep : ∀ s x, P s → P (step s x).state) :
    ∀ (xs : List α) (s : ConnState), P s → P (runConn step s xs).1 := by
  intro xs
  induction xs with
  | nil => intro s h; exact h
  | cons x xs ih =>
    intro s h
    have h2 : P (runConn step (step s x).state xs).1 :=
      ih (step s x).state (hstep s x h)
    exact h2

theorem runConn_unauth_frozen {α : Type} (step : ConnState → α → HandleResult)
    (hstep : ∀ s x, (step s x).state.authenticated = false → (step s x).state = s) :
    ∀ (xs : List α) (s : ConnState),
      (runConn step s xs).1.authenticated = false → (runConn step s xs).1 = s := by
  intro xs
  induction xs with
  | nil => intro s _; rfl
  | cons x xs ih =>
    intro s h
    have h1 : (runConn step (step s x).state xs).1.authenticated = false := h
    have h2 := ih (step s x).state h1
    have h3 : (step s x).state.authenticated = false := by rw [← h2]; exact h1
    have h4 := hstep s x h3
    show (runConn step (step s x).state xs).1 = s
    rw [h2, h4]

theorem min_mul_min (p x : Nat) (hp : 0 < p) :
    min (p * min x 20) 20 = min (p * x) 20 := by
  rcases le_total x 20 with h | h
  · rw [Nat.min_eq_left h]
  · rw [Nat.min_eq_right h]
    have h1 : 20 ≤ p * 20 := Nat.le_mul_of_pos_left 20 hp
    have h2 : 20 ≤ p * x := le_trans h (Nat.le_mul_of_pos_left x hp)
    rw [Nat.min_eq_right h1, Nat.min_eq_right h2]

theorem orbitRun_fail_sleeps :
    ∀ (evs : List OrbitEvent) (d : Nat), d ≤ 20 →
      (∀ e ∈ evs, e = OrbitEvent.urlFail ∨ e = OrbitEvent.connFail) →
      (orbitRun d evs).1
        = (List.range evs.length).map (fun k => min (2 ^ k * d) 20) := by
  intro evs
  induction evs with
  | nil => intro d _ _; rfl
  | cons e evs ih =>
    intro d hd hf
    have hrest : ∀ x ∈ evs, x = OrbitEvent.urlFail ∨ x = OrbitEvent.connFail :=
      fun x hx => hf x (List.mem_cons_of_mem e hx)
    have hd2 : min (2 * d) 20 ≤ 20 := Nat.min_le_right _ _
    have ih2 := ih (min (2 * d) 20) hd2 hrest
    have head : min (2 ^ 0 * d) 20 = d := by
      rw [pow_zero, one_mul, Nat.min_eq_left hd]
    have tail : ((List.range evs.length).map Nat.succ).map
          (fun k => min (2 ^ k * d) 20)
        = (List.range evs.length).map (fun k => min (2 ^ k * min (2 * d) 20) 20) := by
      rw [List.map_map]
      refine List.map_congr_left ?_
      intro k _
      show min (2 ^ (k + 1) * d) 20 = min (2 ^ k * min (2 * d) 20) 20
      rw [min_mul_min (2 ^ k) (2 * d) (Nat.two_pow_pos k)]
      rw [pow_succ]
      ring_nf
    have step : (orbitRun d (e :: evs)).1
        = d :: (orbitRun (min (2 * d) 20) evs).1 := by
      rcases hf e (List.mem_cons_self e evs) with he | he <;>
        simp [he, orbitRun, next_reconnect_delay, ORBIT_MAX_DELAY]
    rw [step, ih2, List.length_cons, List.range_succ_eq_map]
    simp only [List.map_cons]
    rw [head, ← tail]

/-- C4 counterexample: after one connection failure from a cold start, the
code waits one second before attempt 2, while the claimed formula
min(base * 2^n, cap) with n = 1 demands two seconds. -/
theorem orbit_backoff_counterexample :
    (orbitRun ORBIT_BASE_DELAY [OrbitEvent.connFail]).1 = [1] ∧
    min (ORBIT_BASE_DELAY * 2 ^ 1) ORBIT_MAX_DELAY = 2 ∧
    (orbitRun ORBIT_BASE_DELAY [OrbitEvent.connFail]).1
      ≠ [min (ORBIT_BASE_DELAY * 2 ^ 1) ORBIT_MAX_DELAY] := by
  refine ⟨rfl, rfl, by decide⟩

/-- C4 (amended): in runner mode, after n consecutive failures (connect
failures or URL build failures) from a cold start, the wait before attempt
n+1 equals min(base * 2^(n-1), cap) — the sleep recorded at position k of the
sleep list is the wait after failure k+1 and equals min(base * 2^k, cap); and
a successful connection resets the delay, so the stream termination ending
that session waits exactly the base interval, with subsequent consecutive
failures waiting min(base * 2^(k+1), cap). Base is one second and cap twenty
seconds. -/
theorem orbit_backoff_amended (evs : List OrbitEvent)
    (hfail : ∀ e ∈ evs, e = OrbitEvent.urlFail ∨ e = OrbitEvent.connFail) :
    ((orbitRun ORBIT_BASE_DELAY evs).1
      = (List.range evs.length).map
          (fun k => min (ORBIT_BASE_DELAY * 2 ^ k) ORBIT_MAX_DELAY)) ∧
    (∀ d, (orbitRun d (OrbitEvent.sessionEnd :: evs)).1
      = ORBIT_BASE_DELAY :: (List.range evs.length).map
          (fun k => min (ORBIT_BASE_DELAY * 2 ^ (k + 1)) ORBIT_MAX_DELAY)) := by
  constructor
  · have h := orbitRun_fail_sleeps evs 1 (by norm_num) hfail
    simpa [ORBIT_BASE_DELAY, ORBIT_MAX_DELAY, mul_comm] using h
  · intro d
    have h := orbitRun_fail_sleeps evs 2 (by norm_num) hfail
    have step : (orbitRun d (OrbitEvent.sessionEnd :: evs)).1
        = 1 :: (orbitRun 2 evs).1 := by
      simp [orbitRun, next_reconnect_delay, ORBIT_BASE_DELAY, ORBIT_MAX_DELAY]
    rw [ORBIT_BASE_DELAY] at *
    rw [step, h]
    refine congrArg (fun l => 1 :: l) ?_
    refine List.map_congr_left ?_
    intro k _
    show min (2 ^ k * 2) 20 = min (1 * 2 ^ (k + 1)) 20
    rw [one_mul, pow_succ]

/-- C4 witness: three consecutive failures from a cold start sleep one, two
then four seconds, and after a successful session the termination sleep is
one second followed by two and four. -/
theorem orbit_backoff_amended_witness :
    ((orbitRun ORBIT_BASE_DELAY
        [OrbitEvent.connFail, OrbitEvent.urlFail, OrbitEvent.connFail]).1
      = (List.range 3).map
          (fun k => min (ORBIT_BASE_DELAY * 2 ^ k) ORBIT_MAX_DELAY)) ∧
    ((orbitRun 20 (OrbitEvent.sessionEnd ::
        [OrbitEvent.connFail, OrbitEvent.urlFail, OrbitEvent.connFail])).1
      = ORBIT_BASE_DELAY :: (List.range 3).map
          (fun k => min (ORBIT_BASE_DELAY * 2 ^ (k + 1)) ORBIT_MAX_DELAY)) := by
  have h := orbit_backoff_amended
    [OrbitEvent.connFail, OrbitEvent.urlFail, OrbitEvent.connFail]
    (by intro e he; fin_cases he <;> simp)
  exact ⟨h.1, h.2 20⟩

/-- C6: a received line that fails to parse as JSON (or is blank) produces no
output of any kind, performs no dispatch, leaves the connection state
untouched in both the monolithic and the transport-module handler, and the
read loop simply continues with the remaining lines; the orbit handler drops
such a line the same way. -/
theorem malformed_line_dropped (parse : String → Option JValue)
    (token : Option String) (env : RpcEnv) (s : ConnState) (line : String)
    (h : parse line.trim = none) :
    handle_client_line parse token env s line = ⟨s, [], []⟩ ∧
    handle_rpc_line parse token env s line = ⟨s, [], []⟩ ∧
    (∀ rest, runConn (handle_client_line parse token env) s (line :: rest)
      = runConn (handle_client_line parse token env) s rest) ∧
    (∀ rest, runConn (handle_rpc_line parse token env) s (line :: rest)
      = runConn (handle_rpc_line parse token env) s rest) ∧
    handle_orbit_line parse env line.trim = ([], []) := by
  have h1 : handle_client_line parse token env s line = ⟨s, [], []⟩ := by
    by_cases ht : line.trim = "" <;> simp [handle_client_line, ht, h]
  have h2 : handle_rpc_line parse token env s line = ⟨s, [], []⟩ := by
    by_cases ht : line.trim = "" <;> simp [handle_rpc_line, ht, h]
  refine ⟨h1, h2, ?_, ?_, ?_⟩
  · intro rest
    rw [runConn_cons, h1]
    simp
  · intro rest
    rw [runConn_cons, h2]
    simp
  · simp [handle_orbit_line, h]

/-- C6 witness: a concrete unparseable line on an unauthenticated connection
with a configured token is dropped whole. -/
theorem malformed_line_dropped_witness :
    handle_client_line exParseNone (some "secret") exEnv exUnauthState
        "this is not json" = ⟨exUnauthState, [], []⟩ ∧
    handle_rpc_line exParseNone (some "secret") exEnv exUnauthState
        "this is not json" = ⟨exUnauthState, [], []⟩ := by
  have h := malformed_line_dropped exParseNone (some "secret") exEnv
    exUnauthState "this is not json" rfl
  exact ⟨h.1, h.2.1⟩

/-- C7: with no token configured, a connection starts authenticated (with its
event-forwarding task already spawned), and the first request with id 1 and
method ping is answered with a result envelope carrying ok true, without any
auth exchange, in both handlers. -/
theorem no_token_ping_ok (env : RpcEnv) :
    initial_conn_state none = { authenticated := true, eventTasks := 1 } ∧
    handle_client_message none env (initial_conn_state none) exPingMsg
      = ⟨{ authenticated := true, eventTasks := 1 },
         [Output.result 1 okTrue], [("ping", JValue.null)]⟩ ∧
    handle_rpc_json_message none env (initial_conn_state none) exPingMsg
      = ⟨{ authenticated := true, eventTasks := 1 },
         [Output.result 1 okTrue], [("ping", JValue.null)]⟩ := by
  refine ⟨rfl, rfl, rfl⟩

/-- C8: in runner mode, every envelope carrying a string type field is
consumed at the relay level and never dispatched: it is answered with a pong
frame exactly when the type equals ping ignoring ASCII case; and an auth
request with no type field is accepted unconditionally — the handler has no
token input at all, so no secret comparison can occur — answering a success
envelope exactly when an id is present. -/
theorem orbit_ping_and_auth (env : RpcEnv) (m : JValue) :
    (∀ t, (m.get? "type").bind JValue.asStr? = some t →
      handle_orbit_message env m
        = ((if eqIgnoreAsciiCase t "ping" then [Output.pong] else []), [])) ∧
    ((m.get? "type").bind JValue.asStr? = none → msgMethod m = "auth" →
      handle_orbit_message env m
        = ((build_result_response (msgId m) okTrue).toList, [])) := by
  constructor
  · intro t ht
    simp [handle_orbit_message, ht]
  · intro ht hm
    simp [handle_orbit_message, ht, hm]

/-- C8 witness: a frame with type PING is answered with pong and not
dispatched; an auth request with id 5 is answered ok with no secret
checked. -/
theorem orbit_ping_and_auth_witness :
    handle_orbit_message exEnv exOrbitPing = ([Output.pong], []) ∧
    handle_orbit_message exEnv exOrbitAuth = ([Output.result 5 okTrue], []) := by
  constructor
  · have h := (orbit_ping_and_auth exEnv exOrbitPing).1 "PING" rfl
    have h2 : eqIgnoreAsciiCase "PING" "ping" = true := by decide
    rw [h2] at h
    simpa using h
  · have h := (orbit_ping_and_auth exEnv exOrbitAuth).2 rfl rfl
    simpa using h

theorem handle_client_message_state_cases (token : Option String)
    (env : RpcEnv) (s : ConnState) (m : JValue) :
    (handle_client_message token env s m).state = s ∨
    (s.authenticated = false ∧
      (handle_client_message token env s m).state
        = { authenticated := true, eventTasks := s.eventTasks + 1 }) := by
  by_cases h1 : s.authenticated = false
  · by_cases h2 : msgMethod m ≠ "auth"
    · left; simp [handle_client_message, h1, h2]
    · by_cases h3 : (token.getD "") ≠ ((parse_auth_token (msgParams m)).getD "")
      · left; simp [handle_client_message, h1, h2, h3]
      · right
        refine ⟨h1, ?_⟩
        simp [handle_client_message, h1, h2, h3]
  · left; simp [handle_client_message, h1]

theorem handle_rpc_json_message_state_cases (token : Option String)
    (env : RpcEnv) (s : ConnState) (m : JValue) :
    (handle_rpc_json_message token env s m).state = s ∨
    (s.authenticated = false ∧
      (handle_rpc_json_message token env s m).state
        = { authenticated := true,
            eventTasks := if s.eventTasks = 0 then s.eventTasks + 1
                          else s.eventTasks }) := by
  by_cases h0 : msgMethod m = ""
  · left; simp [handle_rpc_json_message, h0]
  · by_cases h1 : s.authenticated = false
    · by_cases h2 : msgMethod m ≠ "auth"
      · left; simp [handle_rpc_json_message, h0, h1, h2]
      · by_cases h3 : (token.getD "") ≠ ((parse_auth_token (msgParams m)).getD "")
        · left; simp [handle_rpc_json_message, h0, h1, h2, h3]
        · right
          refine ⟨h1, ?_⟩
          simp [handle_rpc_json_message, h0, h1, h2, h3]
    · left; simp [handle_rpc_json_message, h0, h1]

theorem handle_client_message_unauth_frozen (token : Option String)
    (env : RpcEnv) (s : ConnState) (m : JValue)
    (h : (handle_client_message token env s m).state.authenticated = false) :
    (handle_client_message token env s m).state = s := by
  rcases handle_client_message_state_cases token env s m with h1 | ⟨_, h1⟩
  · exact h1
  · rw [h1] at h
    simp at h

theorem handle_rpc_json_message_unauth_frozen (token : Option String)
    (env : RpcEnv) (s : ConnState) (m : JValue)
    (h : (handle_rpc_json_message token env s m).state.authenticated = false) :
    (handle_rpc_json_message token env s m).state = s := by
  rcases handle_rpc_json_message_state_cases token env s m with h1 | ⟨_, h1⟩
  · exact h1
  · rw [h1] at h
    simp at h

theorem handle_client_message_good (token : Option String) (env : RpcEnv)
    (s : ConnState) (m : JValue) (hs : goodState s) :
    goodState (handle_client_message token env s m).state := by
  rcases handle_client_message_state_cases token env s m with h1 | ⟨hf, h1⟩
  · rwa [h1]
  · rcases hs with h0 | h0
    · right; rw [h1, h0]
    · rw [h0] at hf
      simp at hf

theorem handle_rpc_json_message_good (token : Option String) (env : RpcEnv)
    (s : ConnState) (m : JValue) (hs : goodState s) :
    goodState (handle_rpc_json_message token env s m).state := by
  rcases handle_rpc_json_message_state_cases token env s m with h1 | ⟨hf, h1⟩
  · rwa [h1]
  · rcases hs with h0 | h0
    · right; rw [h1, h0]; simp
    · rw [h0] at hf
      simp at hf

/-- C1 (amended): with a token configured and the connection still
unauthenticated, any request whose method is nonempty and differs from auth
receives the unauthorized error envelope exactly when it carried an id, the
connection state is unchanged and nothing is dispatched, in both handlers;
the monolithic TCP handler moreover answers even empty-method requests this
way, while the transport-module handler silently drops those; and along any
trace that never reaches the authenticated state, no event-forwarding task is
ever spawned, so no event notification can be delivered before a successful
auth. -/
theorem auth_gate (tok : String) (env : RpcEnv) (s : ConnState) (m : JValue)
    (hs : s.authenticated = false) (hm : msgMethod m ≠ "auth") :
    (handle_client_message (some tok) env s m
      = ⟨s, (build_error_response (msgId m) "unauthorized").toList, []⟩) ∧
    (msgMethod m ≠ "" →
      handle_rpc_json_message (some tok) env s m
        = ⟨s, (build_error_response (msgId m) "unauthorized").toList, []⟩) ∧
    (msgMethod m = "" →
      handle_rpc_json_message (some tok) env s m = ⟨s, [], []⟩) ∧
    (∀ msgs : List JValue,
      (runConn (handle_client_message (some tok) env) s msgs).1.authenticated
          = false →
        (runConn (handle_client_message (some tok) env) s msgs).1.eventTasks
          = s.eventTasks) ∧
    (∀ msgs : List JValue,
      (runConn (handle_rpc_json_message (some tok) env) s msgs).1.authenticated
          = false →
        (runConn (handle_rpc_json_message (some tok) env) s msgs).1.eventTasks
          = s.eventTasks) := by
  refine ⟨?_, ?_, ?_, ?_, ?_⟩
  · simp [handle_client_message, hs, hm]
  · intro h0
    simp [handle_rpc_json_message, h0, hs, hm]
  · intro h0
    simp [handle_rpc_json_message, h0]
  · intro msgs h
    have h2 := runConn_unauth_frozen (handle_client_message (some tok) env)
      (handle_client_message_unauth_frozen (some tok) env) msgs s h
    rw [h2]
  · intro msgs h
    have h2 := runConn_unauth_frozen (handle_rpc_json_message (some tok) env)
      (handle_rpc_json_message_unauth_frozen (some tok) env) msgs s h
    rw [h2]

/-- C1 counterexample: the transport-module handler drops an unauthenticated
request carrying id 1 whose method is the empty string (not auth) without
sending the required unauthorized error envelope. -/
theorem auth_gate_counterexample :
    msgId exEmptyMethodMsg = some 1 ∧
    msgMethod exEmptyMethodMsg ≠ "auth" ∧
    exUnauthState.authenticated = false ∧
    (handle_rpc_json_message (some "secret") exEnv exUnauthState
        exEmptyMethodMsg).out = [] := by
  refine ⟨rfl, by decide, rfl, rfl⟩

/-- C1 witness: an unauthenticated ping with id 1 is answered with the
unauthorized error envelope and the state stays unauthenticated. -/
theorem auth_gate_witness :
    handle_client_message (some "secret") exEnv exUnauthState exPingMsg
      = ⟨exUnauthState, [Output.error 1 "unauthorized"], []⟩ :=
  (auth_gate "secret" exEnv exUnauthState exPingMsg rfl (by decide)).1

/-- C2 (amended): in the monolithic TCP handler a response envelope is sent
if and only if the request carried a u64 id, and it correlates to that id; in
the transport-module handler the same holds except that an empty-method
request is silently dropped even when it carried an id. In particular a
request omitting its id never produces any response in either handler. -/
theorem response_iff_id (token : Option String) (env : RpcEnv) (s : ConnState)
    (m : JValue) :
    ((msgId m = none → (handle_client_message token env s m).out = []) ∧
     (∀ i, msgId m = some i →
        ∃ o, (handle_client_message token env s m).out = [o] ∧
          outputId o = some i)) ∧
    (((msgId m = none ∨ msgMethod m = "") →
        (handle_rpc_json_message token env s m).out = []) ∧
     (∀ i, msgId m = some i → msgMethod m ≠ "" →
        ∃ o, (handle_rpc_json_message token env s m).out = [o] ∧
          outputId o = some i)) := by
  refine ⟨⟨?_, ?_⟩, ⟨?_, ?_⟩⟩
  · intro h
    simp only [handle_client_message]
    split_ifs with h1 h2 h3 <;>
      simp [h, rpcResponse_none, build_error_response, build_result_response]
  · intro i h
    simp only [handle_client_message]
    split_ifs with h1 h2 h3
    · exact ⟨Output.error i "unauthorized", by simp [h, build_error_response], rfl⟩
    · exact ⟨Output.error i "invalid token", by simp [h, build_error_response], rfl⟩
    · exact ⟨Output.result i okTrue, by simp [h, build_result_response], rfl⟩
    · obtain ⟨o, ho, hid⟩ :=
        rpcResponse_some i (handle_rpc_request env (msgMethod m) (msgParams m))
      exact ⟨o, by simp [h, ho], hid⟩
  · intro h
    simp only [handle_rpc_json_message]
    split_ifs with h0 h1 h2 h3 <;>
      rcases h with h | h <;>
      simp_all [rpcResponse_none, build_error_response, build_result_response,
        spawn_rpc_response_task]
  · intro i h hme
    simp only [handle_rpc_json_message]
    split_ifs with h0 h1 h2 h3 h4
    · exact absurd h0 hme
    · exact ⟨Output.error i "unauthorized", by simp [h, build_error_response], rfl⟩
    · exact ⟨Output.error i "invalid token", by simp [h, build_error_response], rfl⟩
    · exact ⟨Output.result i okTrue, by simp [h, build_result_response], rfl⟩
    · exact ⟨Output.result i okTrue, by simp [h, build_result_response], rfl⟩
    · obtain ⟨o, ho, hid⟩ :=
        rpcResponse_some i (handle_rpc_request env (msgMethod m) (msgParams m))
      exact ⟨o, by simp [h, ho, spawn_rpc_response_task], hid⟩

/-- C2 counterexample: the transport-module handler sends no response at all
to an authenticated request that carried id 1 but an empty method name. -/
theorem response_iff_id_counterexample :
    msgId exEmptyMethodMsg = some 1 ∧
    exAuthState.authenticated = true ∧
    (handle_rpc_json_message (some "secret") exEnv exAuthState
        exEmptyMethodMsg).out = [] :=
  ⟨rfl, rfl, rfl⟩

/-- C2 witness: an authenticated ping with id 1 produces exactly one response
correlated to id 1. -/
theorem response_iff_id_witness :
    ∃ o, (handle_client_message (some "secret") exEnv exAuthState
        exPingMsg).out = [o] ∧ outputId o = some 1 :=
  (response_iff_id (some "secret") exEnv exAuthState exPingMsg).1.2 1 rfl

/-- C3 (amended): with a token configured, the first correct auth succeeds
(ok envelope when an id is present) and spawns the single event-forwarding
task; but a second auth on the already-authenticated connection is not
special-cased: it is dispatched as an ordinary RPC and answered with the
error envelope unknown method: auth (when an id is present) rather than a
success envelope, in both handlers. No second event-forwarding task is ever
spawned: along every trace from a fresh token-bearing connection the number
of spawned forwarding tasks stays at most one, so no event is delivered
twice. -/
theorem auth_twice_amended (tok : String) (env : RpcEnv) :
    (∀ m, msgMethod m = "auth" → parse_auth_token (msgParams m) = some tok →
      handle_client_message (some tok) env
          { authenticated := false, eventTasks := 0 } m
        = ⟨{ authenticated := true, eventTasks := 1 },
           (build_result_response (msgId m) okTrue).toList, []⟩ ∧
      handle_rpc_json_message (some tok) env
          { authenticated := false, eventTasks := 0 } m
        = ⟨{ authenticated := true, eventTasks := 1 },
           (build_result_response (msgId m) okTrue).toList, []⟩) ∧
    (∀ s m, s.authenticated = true → msgMethod m = "auth" →
      handle_client_message (some tok) env s m
        = ⟨s, (build_error_response (msgId m) "unknown method: auth").toList,
           [("auth", msgParams m)]⟩ ∧
      handle_rpc_json_message (some tok) env s m
        = ⟨s, (build_error_response (msgId m) "unknown method: auth").toList,
           [("auth", msgParams m)]⟩) ∧
    (∀ msgs, (runConn (handle_client_message (some tok) env)
        { authenticated := false, eventTasks := 0 } msgs).1.eventTasks ≤ 1) ∧
    (∀ msgs, (runConn (handle_rpc_json_message (some tok) env)
        { authenticated := false, eventTasks := 0 } msgs).1.eventTasks ≤ 1) := by
  have hcont : dispatchableMethods.contains "auth" = false := by decide
  have hmem : ("auth" : String) ∉ dispatchableMethods := by simpa using hcont
  have hping : ("auth" : String) ≠ "ping" := by decide
  refine ⟨?_, ?_, ?_, ?_⟩
  · intro m hm hp
    constructor
    · simp [handle_client_message, hm, hp]
    · simp [handle_rpc_json_message, hm, hp]
  · intro s m hs hm
    constructor
    · simp [handle_client_message, hs, hm, handle_rpc_request, hmem, hping,
        rpcResponse]
    · simp [handle_rpc_json_message, hs, hm, spawn_rpc_response_task,
        handle_rpc_request, hmem, hping, rpcResponse]
  · intro msgs
    have hgood := runConn_state_preserve (handle_client_message (some tok) env)
      goodState (handle_client_message_good (some tok) env) msgs
      { authenticated := false, eventTasks := 0 } (Or.inl rfl)
    rcases hgood with h | h <;> simp [h]
  · intro msgs
    have hgood := runConn_state_preserve (handle_rpc_json_message (some tok) env)
      goodState (handle_rpc_json_message_good (some tok) env) msgs
      { authenticated := false, eventTasks := 0 } (Or.inl rfl)
    rcases hgood with h | h <;> simp [h]

/-- C3 counterexample: two consecutive correct auth requests with ids 1 and 2
on a token-bearing connection: the first is answered ok, but the second is
answered with the error envelope unknown method: auth — not a success
envelope — because the already-authenticated connection dispatches auth as an
ordinary RPC. -/
theorem auth_twice_counterexample :
    runConn (handle_client_message (some "secret") exEnv) exUnauthState
        [exAuthReq1, exAuthReq2]
      = ({ authenticated := true, eventTasks := 1 },
         [Output.result 1 okTrue, Output.error 2 "unknown method: auth"],
         [("auth", JValue.str "secret")]) ∧
    (∀ v : JValue,
      Output.error 2 "unknown method: auth" ≠ Output.result 2 v) := by
  exact ⟨rfl, fun v h => Output.noConfusion h⟩

/-- C3 witness: instantiates the amended theorem on the concrete token secret
and the concrete second auth request with id 2 on an authenticated
connection. -/
theorem auth_twice_amended_witness :
    handle_client_message (some "secret") exEnv exAuthState exAuthReq2
      = ⟨exAuthState, [Output.error 2 "unknown method: auth"],
         [("auth", JValue.str "secret")]⟩ :=
  ((auth_twice_amended "secret" exEnv).2.1 exAuthState exAuthReq2 rfl rfl).1

/-- C5 (amended): dispatch of any method name outside the closed set of named
operations returns the uniform unknown-method error rather than crashing or
dropping the request, and the monolithic TCP handler performs this dispatch
for every authenticated request, the empty method name included; the
transport-module handler does the same for every nonempty method name but
silently drops the empty one without dispatching. -/
theorem unknown_method_error (token : Option String) (env : RpcEnv)
    (method : String) (params : JValue) (s : ConnState) (m : JValue)
    (hu : dispatchableMethods.contains method = false)
    (hsm : s.authenticated = true)
    (hmm : dispatchableMethods.contains (msgMethod m) = false) :
    handle_rpc_request env method params
      = Except.error ("unknown method: " ++ method) ∧
    handle_client_message token env s m
      = ⟨s, (build_error_response (msgId m)
              ("unknown method: " ++ msgMethod m)).toList,
         [(msgMethod m, msgParams m)]⟩ ∧
    (msgMethod m ≠ "" →
      handle_rpc_json_message token env s m
        = ⟨s, (build_error_response (msgId m)
                ("unknown method: " ++ msgMethod m)).toList,
           [(msgMethod m, msgParams m)]⟩) := by
  have hmem : method ∉ dispatchableMethods := by simpa using hu
  have hmem2 : msgMethod m ∉ dispatchableMethods := by simpa using hmm
  have hping : method ≠ "ping" := by
    intro he
    rw [he] at hu
    exact absurd hu (by decide)
  have hping2 : msgMethod m ≠ "ping" := by
    intro he
    rw [he] at hmm
    exact absurd hmm (by decide)
  refine ⟨?_, ?_, ?_⟩
  · simp [handle_rpc_request, hping, hmem]
  · simp [handle_client_message, hsm, handle_rpc_request, hping2, hmem2,
      rpcResponse]
  · intro hme
    simp [handle_rpc_json_message, hme, hsm, spawn_rpc_response_task,
      handle_rpc_request, hping2, hmem2, rpcResponse]

/-- C5 counterexample: the transport-module handler neither dispatches nor
answers an authenticated request carrying id 7 and the empty method name,
although the empty string is outside the closed set of named operations. -/
theorem unknown_method_counterexample :
    msgMethod exEmptyMethodMsgB = "" ∧
    msgId exEmptyMethodMsgB = some 7 ∧
    exAuthState.authenticated = true ∧
    handle_rpc_json_message (some "secret") exEnv exAuthState exEmptyMethodMsgB
      = ⟨exAuthState, [], []⟩ :=
  ⟨rfl, rfl, rfl, rfl⟩

/-- C5 witness: a request for the unknown method frobnicate with id 9 is
dispatched and answered with the uniform unknown-method error. -/
theorem unknown_method_error_witness :
    handle_rpc_request exEnv "frobnicate" JValue.null
      = Except.error "unknown method: frobnicate" ∧
    handle_client_message (some "secret") exEnv exAuthState
        (JValue.obj [("id", JValue.num 9), ("method", JValue.str "frobnicate")])
      = ⟨exAuthState, [Output.error 9 "unknown method: frobnicate"],
         [("frobnicate", JValue.null)]⟩ := by
  have h := unknown_method_error (some "secret") exEnv "frobnicate" JValue.null
    exAuthState
    (JValue.obj [("id", JValue.num 9), ("method", JValue.str "frobnicate")])
    (by decide) rfl (by decide)
  exact ⟨h.1, h.2.1⟩

theorem parseArgsLoop_missing_token (pa : String → Except String String)
    (dd : String) :
    ∀ (n : Nat) (args : List String) (st : ArgLoopState), args.length ≤ n →
      st.token = none → st.insecureNoAuth = false → st.orbitUrl = none →
      "--token" ∉ args → "--insecure-no-auth" ∉ args → "--orbit-url" ∉ args →
      "-h" ∉ args → "--help" ∉ args →
      ∃ msg, parseArgsLoop pa dd st args = ParseArgsResult.err msg := by
  intro n
  induction n with
  | zero =>
    intro args st hlen ht hi ho m1 m2 m3 m4 m5
    have hnil : args = [] := List.length_eq_zero.mp (Nat.le_zero.mp hlen)
    subst hnil
    exact ⟨missingTokenError, by simp [parseArgsLoop, parseArgsFinish, ht, hi, ho]⟩
  | succ n ih =>
    intro args st hlen ht hi ho m1 m2 m3 m4 m5
    rcases args with _ | ⟨arg, rest⟩
    · exact ⟨missingTokenError, by simp [parseArgsLoop, parseArgsFinish, ht, hi, ho]⟩
    have harg1 : arg ≠ "-h" := fun he => m4 (he ▸ List.mem_cons_self _ _)
    have harg2 : arg ≠ "--help" := fun he => m5 (he ▸ List.mem_cons_self _ _)
    have harg3 : arg ≠ "--token" := fun he => m1 (he ▸ List.mem_cons_self _ _)
    have harg4 : arg ≠ "--insecure-no-auth" :=
      fun he => m2 (he ▸ List.mem_cons_self _ _)
    have harg5 : arg ≠ "--orbit-url" := fun he => m3 (he ▸ List.mem_cons_self _ _)
    have hm1r : "--token" ∉ rest := fun hx => m1 (List.mem_cons_of_mem _ hx)
    have hm2r : "--insecure-no-auth" ∉ rest :=
      fun hx => m2 (List.mem_cons_of_mem _ hx)
    have hm3r : "--orbit-url" ∉ rest := fun hx => m3 (List.mem_cons_of_mem _ hx)
    have hm4r : "-h" ∉ rest := fun hx => m4 (List.mem_cons_of_mem _ hx)
    have hm5r : "--help" ∉ rest := fun hx => m5 (List.mem_cons_of_mem _ hx)
    by_cases hl : arg = "--listen"
    · subst hl
      rcases rest with _ | ⟨v, rest2⟩
      · exact ⟨"--listen requires a value", by simp [parseArgsLoop]⟩
      have hlen2 : rest2.length ≤ n := by
        simp only [List.length_cons] at hlen
        omega
      rcases hpa : pa v with e | a
      · exact ⟨e, by simp [parseArgsLoop, hpa]⟩
      · obtain ⟨msg, hmsg⟩ := ih rest2 { st with listen := a } hlen2 ht hi ho
          (fun hx => hm1r (List.mem_cons_of_mem _ hx))
          (fun hx => hm2r (List.mem_cons_of_mem _ hx))
          (fun hx => hm3r (List.mem_cons_of_mem _ hx))
          (fun hx => hm4r (List.mem_cons_of_mem _ hx))
          (fun hx => hm5r (List.mem_cons_of_mem _ hx))
        exact ⟨msg, by simp [parseArgsLoop, hpa, hmsg]⟩
    by_cases hdd : arg = "--data-dir"
    · subst hdd
      rcases rest with _ | ⟨v, rest2⟩
      · exact ⟨"--data-dir requires a value", by simp [parseArgsLoop]⟩
      have hlen2 : rest2.length ≤ n := by
        simp only [List.length_cons] at hlen
        omega
      by_cases hv : v.trim = ""
      · exact ⟨"--data-dir requires a non-empty value",
          by simp [parseArgsLoop, hv]⟩
      · obtain ⟨msg, hmsg⟩ := ih rest2 { st with dataDir := some v.trim } hlen2
          ht hi ho
          (fun hx => hm1r (List.mem_cons_of_mem _ hx))
          (fun hx => hm2r (List.mem_cons_of_mem _ hx))
          (fun hx => hm3r (List.mem_cons_of_mem _ hx))
          (fun hx => hm4r (List.mem_cons_of_mem _ hx))
          (fun hx => hm5r (List.mem_cons_of_mem _ hx))
        exact ⟨msg, by simp [parseArgsLoop, hv, hmsg]⟩
    by_cases hot : arg = "--orbit-token"
    · subst hot
      rcases rest with _ | ⟨v, rest2⟩
      · exact ⟨"--orbit-token requires a value", by simp [parseArgsLoop]⟩
      have hlen2 : rest2.length ≤ n := by
        simp only [List.length_cons] at hlen
        omega
      by_cases hv : v.trim = ""
      · exact ⟨"--orbit-token requires a non-empty value",
          by simp [parseArgsLoop, hv]⟩
      · obtain ⟨msg, hmsg⟩ := ih rest2 { st with orbitToken := some v.trim }
          hlen2 ht hi ho
          (fun hx => hm1r (List.mem_cons_of_mem _ hx))
          (fun hx => hm2r (List.mem_cons_of_mem _ hx))
          (fun hx => hm3r (List.mem_cons_of_mem _ hx))
          (fun hx => hm4r (List.mem_cons_of_mem _ hx))
          (fun hx => hm5r (List.mem_cons_of_mem _ hx))
        exact ⟨msg, by simp [parseArgsLoop, hv, hmsg]⟩
    by_cases hoa : arg = "--orbit-auth-url"
    · subst hoa
      rcases rest with _ | ⟨v, rest2⟩
      · exact ⟨"--orbit-auth-url requires a value", by simp [parseArgsLoop]⟩
      have hlen2 : rest2.length ≤ n := by
        simp only [List.length_cons] at hlen
        omega
      by_cases hv : v.trim = ""
      · exact ⟨"--orbit-auth-url requires a non-empty value",
          by simp [parseArgsLoop, hv]⟩
      · obtain ⟨msg, hmsg⟩ := ih rest2 { st with orbitAuthUrl := some v.trim }
          hlen2 ht hi ho
          (fun hx => hm1r (List.mem_cons_of_mem _ hx))
          (fun hx => hm2r (List.mem_cons_of_mem _ hx))
          (fun hx => hm3r (List.mem_cons_of_mem _ hx))
          (fun hx => hm4r (List.mem_cons_of_mem _ hx))
          (fun hx => hm5r (List.mem_cons_of_mem _ hx))
        exact ⟨msg, by simp [parseArgsLoop, hv, hmsg]⟩
    by_cases horn : arg = "--orbit-runner-name"
    · subst horn
      rcases rest with _ | ⟨v, rest2⟩
      · exact ⟨"--orbit-runner-name requires a value", by simp [parseArgsLoop]⟩
      have hlen2 : rest2.length ≤ n := by
        simp only [List.length_cons] at hlen
        omega
      by_cases hv : v.trim = ""
      · exact ⟨"--orbit-runner-name requires a non-empty value",
          by simp [parseArgsLoop, hv]⟩
      · obtain ⟨msg, hmsg⟩ := ih rest2 { st with orbitRunnerName := some v.trim }
          hlen2 ht hi ho
          (fun hx => hm1r (List.mem_cons_of_mem _ hx))
          (fun hx => hm2r (List.mem_cons_of_mem _ hx))
          (fun hx => hm3r (List.mem_cons_of_mem _ hx))
          (fun hx => hm4r (List.mem_cons_of_mem _ hx))
          (fun hx => hm5r (List.mem_cons_of_mem _ hx))
        exact ⟨msg, by simp [parseArgsLoop, hv, hmsg]⟩
    exact ⟨"Unknown argument: " ++ arg, by
      unfold parseArgsLoop
      simp [harg1, harg2, harg3, harg4, harg5, hl, hdd, hot, hoa, horn]⟩

/-- C9: when the daemon is started in inbound mode — no --orbit-url argument —
with the token environment variable unset (or blank, which the intake
filters out), no --token argument and no --insecure-no-auth argument (and
not asking for help), argument parsing fails with an error, upon which main
prints that error message followed by the usage text to standard error and
exits with code 2; with an empty argument list the error is exactly the
missing-token message. -/
theorem inbound_missing_token_exit (parseAddr : String → Except String String)
    (dd : String) (envToken envOT envOA envORN : Option String)
    (args : List String) (hTok : envFilter envToken = none)
    (h1 : "--token" ∉ args) (h2 : "--insecure-no-auth" ∉ args)
    (h3 : "--orbit-url" ∉ args) (h4 : "-h" ∉ args) (h5 : "--help" ∉ args) :
    (∃ msg, parse_args parseAddr dd envToken envOT envOA envORN args
        = ParseArgsResult.err msg ∧
      mainParseFailureExit (ParseArgsResult.err msg)
        = some (2, msg ++ "\n\n" ++ usage)) ∧
    parse_args parseAddr dd envToken envOT envOA envORN []
      = ParseArgsResult.err missingTokenError := by
  constructor
  · obtain ⟨msg, hmsg⟩ := parseArgsLoop_missing_token parseAddr dd args.length
      args (initialArgState envToken envOT envOA envORN) le_rfl hTok rfl rfl
      h1 h2 h3 h4 h5
    exact ⟨msg, hmsg, rfl⟩
  · simp [parse_args, parseArgsLoop, parseArgsFinish, initialArgState, hTok]

/-- C9 witness: a daemon started with no arguments, no environment token and
the identity address parser fails with the missing-token message, and main
exits with code 2 printing that message and the usage text. -/
theorem inbound_missing_token_exit_witness :
    parse_args (fun s => Except.ok s) "/data" none none none none []
      = ParseArgsResult.err missingTokenError ∧
    mainParseFailureExit (ParseArgsResult.err missingTokenError)
      = some (2, missingTokenError ++ "\n\n" ++ usage) := by
  have h := inbound_missing_token_exit (fun s => Except.ok s) "/data" none none
    none none [] rfl (by simp) (by simp) (by simp) (by simp) (by simp)
  exact ⟨h.2, rfl⟩

/-- C10: in `read_workspace_file_inner`, once the workspace root has
canonicalized, a candidate path whose canonicalization fails yields an error
and no content; a candidate whose canonical form does not lie under the
canonical root (component-wise prefix, as with an escape through dot-dot
segments or a symlink) is refused with the Invalid file path error; and
content is only ever returned when the candidate canonicalized successfully,
its canonical form lies under the canonical root, and the metadata reports a
regular file. -/
theorem workspace_file_confinement (fs : Fs)
    (root rel canonicalRoot : List String)
    (hroot : fs.canonicalize root = Except.ok canonicalRoot) :
    (∀ e, fs.canonicalize (canonicalRoot ++ rel) = Except.error e →
      read_workspace_file_inner fs root rel
        = Except.error ("Failed to open file: " ++ e)) ∧
    (∀ cp, fs.canonicalize (canonicalRoot ++ rel) = Except.ok cp →
      ¬ canonicalRoot.isPrefixOf cp = true →
      read_workspace_file_inner fs root rel
        = Except.error "Invalid file path") ∧
    (∀ res, read_workspace_file_inner fs root rel = Except.ok res →
      ∃ cp, fs.canonicalize (canonicalRoot ++ rel) = Except.ok cp ∧
        canonicalRoot.isPrefixOf cp = true ∧ fs.isFile cp = Except.ok true) := by
  refine ⟨?_, ?_, ?_⟩
  · intro e he
    simp [read_workspace_file_inner, hroot, he]
  · intro cp hcp hpre
    simp [read_workspace_file_inner, hroot, hcp, hpre]
  · intro res hres
    simp only [read_workspace_file_inner, hroot] at hres
    split at hres
    · simp at hres
    · rename_i cp hcp
      split at hres
      · simp at hres
      · rename_i hpre
        split at hres
        · simp at hres
        · rename_i b h3
          split at hres
          · simp at hres
          · rename_i hb
            have hb2 : b = true := not_not.mp hb
            subst hb2
            exact ⟨cp, hcp, not_not.mp hpre, h3⟩

/-- C10 witness: with a filesystem in which home/ws/../secret canonicalizes
to home/secret, a read of the relative path dot-dot slash secret against the
workspace root home/ws is refused with the Invalid file path error and no
content. -/
theorem workspace_file_confinement_witness :
    read_workspace_file_inner exFs ["home", "ws"] ["..", "secret"]
      = Except.error "Invalid file path" :=
  (workspace_file_confinement exFs ["home", "ws"] ["..", "secret"]
      ["home", "ws"] rfl).2.1 ["home", "secret"] rfl (by decide)
